import Mathlib

/-!
Shallow embedding of `src/agent/deepmdp_agent.py` (class `DeepMDPAgent`).

Modelling conventions:
* Tensors are records of a shape (list of dimension sizes) and flat row-major
  data over `ℚ`.  Elementwise torch operations become `List.zipWith` / `List.map`.
* The neural networks (`Actor`, `Critic`, encoder, transition model, reward
  decoder, observation decoder) and the Adam optimizers are external
  collaborators of this file (they live in `sac_ae.py`, `transition_model.py`,
  `decoder.py` and `torch.optim`); they are modelled as opaque function fields
  of a `Torch` record over which every theorem quantifies.
* A call `loss.backward(); opt.step()` is modelled by an opaque step function
  whose arguments are exactly the parameters and tensors that occur in the
  computation graph of the loss built at that point of the source, and whose
  result is the new parameter/optimizer-state pair for the parameters held by
  that optimizer.
* The mutable python object `self` becomes an explicit `AgentState` record;
  each update method is a state transformer.  An `events` field records which
  update procedures ran, in order (instrumentation of the call sequence; the
  logger `L` itself is an external no-op-safe sink and is not modelled).
* A python `assert` failure is modelled by returning `none`.
-/

namespace DeepMDP

/-- A torch tensor: shape (list of dimension sizes) and flat row-major data. -/
structure Tensor where
  shape : List ℕ
  data : List ℚ
deriving DecidableEq

/-- A parameter vector of a network (flattened weights). -/
abbrev Params := List ℚ

/-- Opaque internal state of a torch optimizer (Adam moments etc.). -/
abbrev OptState := List ℚ

/-- Parameters of the `Actor`: its convolutional encoder and the policy trunk. -/
structure ActorParams where
  encoder : Params
  policy : Params
deriving DecidableEq

/-- Parameters of a `Critic`: shared encoder and the two Q-heads. -/
structure CriticParams where
  encoder : Params
  Q1 : Params
  Q2 : Params
deriving DecidableEq

/-- Elementwise addition (`a + b`). -/
def tadd (a b : Tensor) : Tensor :=
  ⟨a.shape, List.zipWith (fun x y => x + y) a.data b.data⟩

/-- Elementwise subtraction (`a - b`). -/
def tsub (a b : Tensor) : Tensor :=
  ⟨a.shape, List.zipWith (fun x y => x - y) a.data b.data⟩

/-- Elementwise multiplication (`a * b`). -/
def tmul (a b : Tensor) : Tensor :=
  ⟨a.shape, List.zipWith (fun x y => x * y) a.data b.data⟩

/-- Elementwise division (`a / b`). -/
def tdiv (a b : Tensor) : Tensor :=
  ⟨a.shape, List.zipWith (fun x y => x / y) a.data b.data⟩

/-- Elementwise minimum (`torch.min(a, b)`). -/
def tmin (a b : Tensor) : Tensor :=
  ⟨a.shape, List.zipWith (fun x y => min x y) a.data b.data⟩

/-- Scalar times tensor (`c * t`). -/
def tsmul (c : ℚ) (t : Tensor) : Tensor :=
  ⟨t.shape, t.data.map (fun x => c * x)⟩

/-- Elementwise function application. -/
def tmap (f : ℚ → ℚ) (t : Tensor) : Tensor :=
  ⟨t.shape, t.data.map f⟩

/-- `torch.ones_like`. -/
def onesLike (t : Tensor) : Tensor :=
  ⟨t.shape, t.data.map (fun _ => (1 : ℚ))⟩

/-- Mean of all entries (`torch.mean`). -/
def tmean (t : Tensor) : ℚ :=
  t.data.sum / (t.data.length : ℚ)

/-- `F.mse_loss(a, b)`: mean of elementwise squared differences. -/
def mse (a b : Tensor) : ℚ :=
  tmean (tmul (tsub a b) (tsub a b))

/-- `torch.cat([a, b], dim=1)`, kept opaque in layout: the result carries both
data blocks, which is all the opaque network consumers can depend on. -/
def tcat (a b : Tensor) : Tensor :=
  ⟨a.shape, a.data ++ b.data⟩

/-- `t.unsqueeze(0)`: add a leading batch dimension of size 1. -/
def unsqueeze0 (t : Tensor) : Tensor :=
  ⟨1 :: t.shape, t.data⟩

/-- `target_obs[:, :3, :, :]`: keep the first 3 channels of a rank-4
`[B, C, H, W]` tensor (row-major flat index `i` belongs to channel
`(i / (H*W)) % C`). -/
def slice3 (t : Tensor) : Tensor :=
  match t.shape with
  | [b, c, h, w] =>
      ⟨[b, min c 3, h, w],
       ((List.range t.data.length).zip t.data).filterMap
         (fun p => if p.1 / (h * w) % c < 3 then some p.2 else none)⟩
  | _ => t

/-- Modelled from the spec: `utils.preprocess_obs` (in `utils.py`, not part of
the sources here) rescales pixel observations into the `[-0.5, 0.5]` range;
modelled as `x / 255 - 0.5` elementwise. -/
def preprocess_obs (t : Tensor) : Tensor :=
  tmap (fun x => x / 255 - 1 / 2) t

/-- Modelled from the spec: `utils.soft_update_params` (in `utils.py`, not part
of the sources here) performs the exponential-moving-average synchronization:
after one call, each target parameter equals
`(1 - tau) * old_target + tau * online`. -/
def soft_update_params (tau : ℚ) (online target : Params) : Params :=
  List.zipWith (fun p t => tau * p + (1 - tau) * t) online target

/-- Record of which update procedure ran (instrumentation of the call order in
`DeepMDPAgent.update`). -/
inductive Event where
  | criticUpd
  | trUpd
  | actorAlphaUpd
  | syncQ1
  | syncQ2
  | syncEncoder
  | decoderUpd
deriving DecidableEq

/-- The computation graph of the observation-decoder loss: the reconstruction
branch touches only the current observation (through the encoder and decoder),
the model-based branch additionally touches the action (through the transition
model) and the target observation. -/
inductive DecGraph where
  | recon (obs : Tensor)
  | modelB (obs action target : Tensor)
deriving DecidableEq

/-- Result of `decoder_optimizer.step()` together with `encoder_optimizer.step()`
in `update_transition_reward_model`: new encoder, transition-model,
reward-decoder and observation-decoder parameters and both optimizer states. -/
structure TRStepOut where
  enc : Params
  tm : Params
  rd : Params
  dec : Params
  encOpt : OptState
  decOpt : OptState

/-- Result of the two optimizer steps in `update_decoder`. -/
structure DecStepOut where
  enc : Params
  tm : Params
  rd : Params
  dec : Params
  encOpt : OptState
  decOpt : OptState

/-- The external collaborators: network forward passes (from `sac_ae.py`,
`transition_model.py`, `decoder.py`), scalar primitives, and the
backward-pass/optimizer steps of `torch`.  Every theorem quantifies over an
arbitrary such record. -/
structure Torch where
  /-- `torch.exp` on a scalar. -/
  texp : ℚ → ℚ
  /-- `torch.log` / `np.log` on a scalar (applied elementwise via `tmap`). -/
  tlog : ℚ → ℚ
  /-- Policy mean head of `Actor.forward`. -/
  actorMu : ActorParams → Tensor → Tensor
  /-- Sampled action of `Actor.forward` (computed when `compute_pi=True`). -/
  actorPi : ActorParams → Tensor → Tensor
  /-- Log-probability of `Actor.forward` (computed when `compute_log_pi=True`). -/
  actorLogPi : ActorParams → Tensor → Tensor
  /-- Log-std head of `Actor.forward`. -/
  actorLogStd : ActorParams → Tensor → Tensor
  /-- First Q-head of `Critic.forward`. -/
  criticQ1 : CriticParams → Tensor → Tensor → Tensor
  /-- Second Q-head of `Critic.forward`. -/
  criticQ2 : CriticParams → Tensor → Tensor → Tensor
  /-- `critic.encoder` forward. -/
  encoderF : Params → Tensor → Tensor
  /-- `transition_model` forward: predicted next-latent mean and optional sigma
  (`None` for the deterministic variant). -/
  transitionF : Params → Tensor → Tensor × Option Tensor
  /-- `transition_model.sample_prediction`. -/
  transitionSample : Params → Tensor → Tensor
  /-- `reward_decoder` forward. -/
  rewardF : Params → Tensor → Tensor
  /-- Observation `decoder` forward. -/
  decoderF : Params → Tensor → Tensor
  /-- `actor.encoder.copy_conv_weights_from(critic.encoder)`: the actor encoder
  after copying the convolutional weights from the critic encoder. -/
  copyConv : ActorParams → Params → ActorParams
  /-- `critic_loss.backward(); critic_optimizer.step()`: the graph of the critic
  loss is determined by the critic parameters, `obs`, `action` and `target_Q`. -/
  stepCritic : OptState → CriticParams → Tensor → Tensor → Tensor →
    CriticParams × OptState
  /-- `actor_loss.backward(); actor_optimizer.step()`: the graph is determined by
  the actor parameters, `obs`, the (detached-encoder) critic and the detached
  scalar `alpha`. -/
  stepActor : OptState → ActorParams → Tensor → CriticParams → ℚ →
    ActorParams × OptState
  /-- `alpha_loss.backward(); log_alpha_optimizer.step()`: the graph is
  determined by `log_alpha`, the detached `log_pi` and `target_entropy`. -/
  stepAlpha : OptState → ℚ → Tensor → ℚ → ℚ × OptState
  /-- `total_loss.backward()` followed by `encoder_optimizer.step()` and
  `decoder_optimizer.step()` in `update_transition_reward_model`. -/
  stepTR : OptState → OptState → Params → Params → Params → Params →
    Tensor → Tensor → Tensor → Tensor → TRStepOut
  /-- `loss.backward()` followed by `encoder_optimizer.step()` and
  `decoder_optimizer.step()` in `update_decoder`; the loss graph is `DecGraph`. -/
  stepDec : OptState → OptState → Params → Params → Params → Params →
    DecGraph → DecStepOut

/-- The minibatch returned by `replay_buffer.sample()`:
`obs, action, _, reward, next_obs, not_done` (the third field is unused). -/
structure Batch where
  obs : Tensor
  action : Tensor
  aux : Tensor
  reward : Tensor
  next_obs : Tensor
  not_done : Tensor
deriving DecidableEq

/-- The mutable state of a `DeepMDPAgent` object. -/
structure AgentState where
  actor : ActorParams
  critic : CriticParams
  critic_target : CriticParams
  transition_model : Params
  reward_decoder : Params
  decoder : Option Params
  log_alpha : ℚ
  target_entropy : ℚ
  actorOpt : OptState
  criticOpt : OptState
  alphaOpt : OptState
  encoderOpt : OptState
  decoderOpt : OptState
  discount : ℚ
  critic_tau : ℚ
  encoder_tau : ℚ
  actor_update_freq : ℕ
  critic_target_update_freq : ℕ
  decoder_update_freq : ℕ
  reconstruction : Bool
  training : Bool
  events : List Event
deriving DecidableEq

/-- `DeepMDPAgent.__init__` (the network constructors and `weight_init` are
external, so the freshly constructed parameter records are arguments). -/
def init (action_shape : List ℕ)
    (discount init_temperature critic_tau encoder_tau : ℚ)
    (actor_update_freq critic_target_update_freq decoder_update_freq : ℕ)
    (decoder_type : String)
    (T : Torch) (actor0 : ActorParams) (critic0 : CriticParams)
    (transition_model0 reward_decoder0 decoder0 : Params) : AgentState :=
  let recon := decoder_type == "reconstruction"
  let decoder_type1 := if recon then "pixel" else decoder_type
  { actor := T.copyConv actor0 critic0.encoder
    critic := critic0
    critic_target := critic0
    transition_model := transition_model0
    reward_decoder := reward_decoder0
    decoder := if decoder_type1 == "pixel" then some decoder0 else none
    log_alpha := T.tlog init_temperature
    target_entropy := -((action_shape.prod : ℚ))
    actorOpt := []
    criticOpt := []
    alphaOpt := []
    encoderOpt := []
    decoderOpt := []
    discount := discount
    critic_tau := critic_tau
    encoder_tau := encoder_tau
    actor_update_freq := actor_update_freq
    critic_target_update_freq := critic_target_update_freq
    decoder_update_freq := decoder_update_freq
    reconstruction := recon
    training := true
    events := [] }

/-- The `alpha` property: `self.log_alpha.exp()`. -/
def alpha (T : Torch) (s : AgentState) : ℚ :=
  T.texp s.log_alpha

/-- `Actor.forward(obs, compute_pi, compute_log_pi)`: the sampled action and the
log-probability are only produced when the corresponding flag is set. -/
def actorForward (T : Torch) (p : ActorParams) (obs : Tensor)
    (compute_pi compute_log_pi : Bool) :
    Tensor × Option Tensor × Option Tensor × Tensor :=
  (T.actorMu p obs,
   if compute_pi then some (T.actorPi p obs) else none,
   if compute_log_pi then some (T.actorLogPi p obs) else none,
   T.actorLogStd p obs)

/-- `select_action`: runs under `torch.no_grad()`, adds a batch dimension, takes
the policy mean with `compute_pi=False, compute_log_pi=False`, and returns the
flattened result.  It is a method call on `self`, so the (unchanged) agent
state is returned alongside the output. -/
def select_action (T : Torch) (s : AgentState) (obs : Tensor) :
    List ℚ × AgentState :=
  let fw := actorForward T s.actor (unsqueeze0 obs) false false
  (fw.1.data, s)

/-- `sample_action`: like `select_action` but samples (`compute_log_pi=False`). -/
def sample_action (T : Torch) (s : AgentState) (obs : Tensor) :
    List ℚ × AgentState :=
  let fw := actorForward T s.actor (unsqueeze0 obs) true false
  ((fw.2.1.getD ⟨[], []⟩).data, s)

/-- Lines 186-189: `target_V = torch.min(target_Q1, target_Q2)
- self.alpha.detach() * log_pi`, where the next action and its log-probability
come from `self.actor(next_obs)` (both compute flags default to `True`) and the
twin Q-values from the target critic. -/
def critic_target_V (T : Torch) (s : AgentState) (next_obs : Tensor) : Tensor :=
  let fw := actorForward T s.actor next_obs true true
  let policy_action := fw.2.1.getD ⟨[], []⟩
  let log_pi := fw.2.2.1.getD ⟨[], []⟩
  let target_Q1 := T.criticQ1 s.critic_target next_obs policy_action
  let target_Q2 := T.criticQ2 s.critic_target next_obs policy_action
  tsub (tmin target_Q1 target_Q2) (tsmul (alpha T s) log_pi)

/-- Line 190: `target_Q = reward + (not_done * self.discount * target_V)`. -/
def critic_target_Q (T : Torch) (s : AgentState)
    (reward next_obs not_done : Tensor) : Tensor :=
  tadd reward (tmul (tsmul s.discount not_done) (critic_target_V T s next_obs))

/-- `update_critic`: computes the regression target under `no_grad`, evaluates
the online critic on `(obs, action)` to form the twin MSE loss (its graph is
determined by the critic parameters, `obs`, `action`, `target_Q`, which are the
arguments of the opaque `stepCritic`), and runs one critic-optimizer step. -/
def update_critic (T : Torch) (s : AgentState)
    (obs action reward next_obs not_done : Tensor) : AgentState :=
  let target_Q := critic_target_Q T s reward next_obs not_done
  let p := T.stepCritic s.criticOpt s.critic obs action target_Q
  { s with critic := p.1, criticOpt := p.2,
           events := s.events ++ [Event.criticUpd] }

/-- Lines 228-233: the temperature step of `update_actor_and_alpha`:
`alpha_loss = (self.alpha * (-log_pi - self.target_entropy).detach()).mean()`,
then one `log_alpha_optimizer` step, which owns only `[self.log_alpha]`. -/
def log_alpha_opt_step (T : Torch) (s : AgentState) (log_pi : Tensor) :
    AgentState :=
  let q := T.stepAlpha s.alphaOpt s.log_alpha log_pi s.target_entropy
  { s with log_alpha := q.1, alphaOpt := q.2 }

/-- `update_actor_and_alpha`: actor forward with detached encoder, one
actor-optimizer step, then the separate temperature step (which reuses the
`log_pi` computed from the pre-step actor parameters). -/
def update_actor_and_alpha (T : Torch) (s : AgentState) (obs : Tensor) :
    AgentState :=
  let fw := actorForward T s.actor obs true true
  let log_pi := fw.2.2.1.getD ⟨[], []⟩
  let p := T.stepActor s.actorOpt s.actor obs s.critic (alpha T s)
  let s1 := { s with actor := p.1, actorOpt := p.2 }
  let s2 := log_alpha_opt_step T s1 log_pi
  { s2 with events := s2.events ++ [Event.actorAlphaUpd] }

/-- Lines 240-245: the Gaussian-density transition loss.  When the transition
model returns no sigma (deterministic variant), sigma is normalized to an
all-ones tensor; then
`loss = mean(0.5 * ((pred_mu - next_h.detach()) / sigma)^2 + log(sigma))`. -/
def transition_loss (tlog : ℚ → ℚ) (pred_next_latent_mu : Tensor)
    (pred_next_latent_sigma : Option Tensor) (next_h : Tensor) : ℚ :=
  let sigma := pred_next_latent_sigma.getD (onesLike pred_next_latent_mu)
  let diff := tdiv (tsub pred_next_latent_mu next_h) sigma
  tmean (tadd (tsmul (1 / 2) (tmul diff diff)) (tmap tlog sigma))

/-- `update_transition_reward_model`: transition loss plus reward-prediction MSE,
one combined backward pass, then the encoder-optimizer and decoder-optimizer
steps (the decoder optimizer owns the transition-model, reward-decoder and
observation-decoder parameters). -/
def update_transition_reward_model (T : Torch) (s : AgentState)
    (obs action next_obs reward : Tensor) : AgentState :=
  let h := T.encoderF s.critic.encoder obs
  let pr := T.transitionF s.transition_model (tcat h action)
  let next_h := T.encoderF s.critic.encoder next_obs
  let loss := transition_loss T.tlog pr.1 pr.2 next_h
  let pred_next_reward := T.rewardF s.reward_decoder (tcat h action)
  let reward_loss := mse pred_next_reward reward
  let total_loss := loss + reward_loss
  let r := T.stepTR s.encoderOpt s.decoderOpt s.critic.encoder
    s.transition_model s.reward_decoder (s.decoder.getD []) obs action
    next_obs reward
  let _ := total_loss
  { s with critic := { s.critic with encoder := r.enc },
           transition_model := r.tm,
           reward_decoder := r.rd,
           decoder := s.decoder.map (fun _ => r.dec),
           encoderOpt := r.encOpt,
           decoderOpt := r.decOpt,
           events := s.events ++ [Event.trUpd] }

/-- The loss computed by `update_decoder` after the assertion: slice the target
to its first 3 channels, then either decode the predicted next latent against
the range-rescaled target (model-based branch, `not self.reconstruction`) or
decode the current latent against the current, unrescaled observation
(reconstruction branch). -/
def update_decoder_loss (T : Torch) (s : AgentState)
    (obs action target_obs : Tensor) : ℚ :=
  let target1 := slice3 target_obs
  let h := T.encoderF s.critic.encoder obs
  if s.reconstruction = false then
    let next_h := T.transitionSample s.transition_model (tcat h action)
    let target2 := if target1.shape.length = 4 then preprocess_obs target1
      else target1
    let rec_obs := T.decoderF (s.decoder.getD []) next_h
    mse target2 rec_obs
  else
    let rec_obs := T.decoderF (s.decoder.getD []) h
    mse obs rec_obs

/-- The body of `update_decoder` after the assertion has passed: compute the
branch loss, one backward pass, then the encoder-optimizer and decoder-optimizer
steps. -/
def update_decoder_go (T : Torch) (s : AgentState)
    (obs action target_obs : Tensor) : AgentState :=
  let loss := update_decoder_loss T s obs action target_obs
  let graph := if s.reconstruction = false then
      DecGraph.modelB obs action target_obs
    else DecGraph.recon obs
  let r := T.stepDec s.encoderOpt s.decoderOpt s.critic.encoder
    s.transition_model s.reward_decoder (s.decoder.getD []) graph
  let _ := loss
  { s with critic := { s.critic with encoder := r.enc },
           transition_model := r.tm,
           reward_decoder := r.rd,
           decoder := s.decoder.map (fun _ => r.dec),
           encoderOpt := r.encOpt,
           decoderOpt := r.decOpt,
           events := s.events ++ [Event.decoderUpd] }

/-- `update_decoder`: line 261 `assert target_obs.dim() == 4` aborts (modelled
as `none`) before anything is mutated; otherwise the body runs to completion. -/
def update_decoder (T : Torch) (s : AgentState)
    (obs action target_obs : Tensor) : Option AgentState :=
  if target_obs.shape.length = 4 then
    some (update_decoder_go T s obs action target_obs)
  else none

/-- Lines 299-308 of `update`: the three EMA sweeps,
`soft_update_params(self.critic.Q1, self.critic_target.Q1, self.critic_tau)`,
likewise for `Q2`, and the encoder with `self.encoder_tau`. -/
def target_sync (s : AgentState) : AgentState :=
  { s with
    critic_target :=
      { Q1 := soft_update_params s.critic_tau s.critic.Q1 s.critic_target.Q1,
        Q2 := soft_update_params s.critic_tau s.critic.Q2 s.critic_target.Q2,
        encoder := soft_update_params s.encoder_tau s.critic.encoder
          s.critic_target.encoder },
    events := s.events ++ [Event.syncQ1, Event.syncQ2, Event.syncEncoder] }

/-- Lines 293-297 of `update`: the unconditional critic update, the
unconditional transition/reward update, then the actor/alpha update gated on
`step % self.actor_update_freq == 0`. -/
def update_phase1 (T : Torch) (s : AgentState) (b : Batch) (step : ℕ) :
    AgentState :=
  let s1 := update_critic T s b.obs b.action b.reward b.next_obs b.not_done
  let s2 := update_transition_reward_model T s1 b.obs b.action b.next_obs
    b.reward
  if step % s2.actor_update_freq = 0 then update_actor_and_alpha T s2 b.obs
  else s2

/-- `update`: phase 1, then the target-critic soft update gated on
`step % self.critic_target_update_freq == 0`, then the decoder update gated on
`self.decoder is not None and step % self.decoder_update_freq == 0` (which is
called on `next_obs` and may abort on the rank assertion). -/
def update (T : Torch) (s : AgentState) (b : Batch) (step : ℕ) :
    Option AgentState :=
  let s3 := update_phase1 T s b step
  let s4 := if step % s3.critic_target_update_freq = 0 then target_sync s3
    else s3
  if s4.decoder.isSome = true ∧ step % s4.decoder_update_freq = 0 then
    update_decoder T s4 b.obs b.action b.next_obs
  else some s4

/-! ### List-level helper lemmas -/

theorem zipWith_getD (f : ℚ → ℚ → ℚ) :
    ∀ (as bs : List ℚ) (i : ℕ), i < as.length → i < bs.length →
      (List.zipWith f as bs).getD i 0 = f (as.getD i 0) (bs.getD i 0) := by
  intro as
  induction as with
  | nil => intro bs i h1 _; simp at h1
  | cons a as ih =>
    intro bs i h1 h2
    cases bs with
    | nil => simp at h2
    | cons b bs =>
      cases i with
      | zero => rfl
      | succ n =>
        simp only [List.zipWith_cons_cons, List.getD_cons_succ]
        exact ih bs n (by simpa using h1) (by simpa using h2)

theorem map_getD (f : ℚ → ℚ) :
    ∀ (as : List ℚ) (i : ℕ), i < as.length →
      (as.map f).getD i 0 = f (as.getD i 0) := by
  intro as
  induction as with
  | nil => intro i h; simp at h
  | cons a as ih =>
    intro i h
    cases i with
    | zero => rfl
    | succ n =>
      simp only [List.map_cons, List.getD_cons_succ]
      exact ih n (by simpa using h)

theorem zipWith_div_ones :
    ∀ (xs ys : List ℚ), xs.length ≤ ys.length →
      List.zipWith (fun a b => a / b) xs (ys.map fun _ => (1 : ℚ)) = xs := by
  intro xs
  induction xs with
  | nil => intro ys _; simp
  | cons x xs ih =>
    intro ys h
    cases ys with
    | nil => simp at h
    | cons y ys =>
      simp only [List.map_cons, List.zipWith_cons_cons, div_one]
      rw [ih ys (by simpa using h)]

theorem zipWith_add_zeros :
    ∀ (xs ys : List ℚ), xs.length ≤ ys.length →
      List.zipWith (fun a b => a + b) xs (ys.map fun _ => (0 : ℚ)) = xs := by
  intro xs
  induction xs with
  | nil => intro ys _; simp
  | cons x xs ih =>
    intro ys h
    cases ys with
    | nil => simp at h
    | cons y ys =>
      simp only [List.map_cons, List.zipWith_cons_cons, add_zero]
      rw [ih ys (by simpa using h)]

theorem soft_update_params_getD (tau : ℚ) (p t : Params)
    (h : p.length = t.length) (i : ℕ) :
    (soft_update_params tau p t).getD i 0
      = (1 - tau) * t.getD i 0 + tau * p.getD i 0 := by
  by_cases hi : i < p.length
  · rw [soft_update_params, zipWith_getD _ p t i hi (h ▸ hi)]; ring
  · have hp : p.getD i 0 = 0 := List.getD_eq_default _ _ (le_of_not_lt hi)
    have ht : t.getD i 0 = 0 := List.getD_eq_default _ _ (h ▸ le_of_not_lt hi)
    have hz : (soft_update_params tau p t).getD i 0 = 0 := by
      refine List.getD_eq_default _ _ ?_
      simp only [soft_update_params, List.length_zipWith]
      omega
    rw [hp, ht, hz]; ring

/-! ### Concrete instances for closed evaluations -/

/-- A concrete instance of the external collaborators (constant networks,
optimizer steps that return their parameters unchanged). -/
def trivTorch : Torch where
  texp := fun _ => 1
  tlog := fun _ => 0
  actorMu := fun _ _ => ⟨[1], [1]⟩
  actorPi := fun _ _ => ⟨[1], [1]⟩
  actorLogPi := fun _ _ => ⟨[1], [2]⟩
  actorLogStd := fun _ _ => ⟨[1], [0]⟩
  criticQ1 := fun _ _ _ => ⟨[1], [3]⟩
  criticQ2 := fun _ _ _ => ⟨[1], [7]⟩
  encoderF := fun _ _ => ⟨[1], [1]⟩
  transitionF := fun _ _ => (⟨[1], [1]⟩, none)
  transitionSample := fun _ _ => ⟨[1], [1]⟩
  rewardF := fun _ _ => ⟨[1], [0]⟩
  decoderF := fun _ _ => ⟨[1], [0]⟩
  copyConv := fun a e => { a with encoder := e }
  stepCritic := fun o c _ _ _ => (c, o)
  stepActor := fun o a _ _ _ => (a, o)
  stepAlpha := fun o la _ _ => (la, o)
  stepTR := fun eo dOpt enc tm rd dec _ _ _ _ => ⟨enc, tm, rd, dec, eo, dOpt⟩
  stepDec := fun eo dOpt enc tm rd dec _ => ⟨enc, tm, rd, dec, eo, dOpt⟩

/-- A concrete agent state (no observation decoder). -/
def st1 : AgentState where
  actor := ⟨[0], [0]⟩
  critic := ⟨[1], [1], [1]⟩
  critic_target := ⟨[0], [0], [0]⟩
  transition_model := []
  reward_decoder := []
  decoder := none
  log_alpha := 0
  target_entropy := -1
  actorOpt := []
  criticOpt := []
  alphaOpt := []
  encoderOpt := []
  decoderOpt := []
  discount := 1 / 2
  critic_tau := 1 / 10
  encoder_tau := 1 / 5
  actor_update_freq := 2
  critic_target_update_freq := 2
  decoder_update_freq := 1
  reconstruction := false
  training := true
  events := []

/-- A rank-4 observation tensor (1 batch, 4 channels, 1x1 image). -/
def t4 : Tensor := ⟨[1, 4, 1, 1], [1, 2, 3, 4]⟩

/-- A rank-3 tensor (fails the decoder-update assertion). -/
def t3 : Tensor := ⟨[1, 1, 1], [0]⟩

/-- A concrete replay-buffer batch. -/
def b1 : Batch := ⟨⟨[1], [0]⟩, ⟨[1], [0]⟩, ⟨[1], [0]⟩, ⟨[1], [5]⟩, t4, ⟨[1], [1]⟩⟩

/-- `st1` in reconstruction mode with an observation decoder. -/
def st2 : AgentState := { st1 with reconstruction := true, decoder := some [2] }

/-- `st1` in model-based mode with an observation decoder. -/
def st3 : AgentState := { st1 with decoder := some [2] }

/-- A concrete reward tensor. -/
def rew1 : Tensor := ⟨[1], [5]⟩

/-- A concrete `not_done` mask that is 0 (terminal transition). -/
def nd0 : Tensor := ⟨[1], [0]⟩

/-- A concrete `not_done` mask that is 1. -/
def nd1 : Tensor := ⟨[1], [1]⟩

/-! ### Claim theorems -/

/-- C4: in `update_transition_reward_model`, when the transition model returns
no sigma, sigma is normalized to an all-ones tensor and the Gaussian density
loss `mean(0.5*((pred_mu - target)/sigma)^2 + log(sigma))` collapses to
`mean(0.5*(pred_mu - target)^2)` for every predicted mean and target latent
(using that the external `torch.log` satisfies `log 1 = 0`). -/
theorem deterministic_sigma_collapses_loss (tlog : ℚ → ℚ)
    (pred_mu next_h : Tensor) (h1 : tlog 1 = 0) :
    transition_loss tlog pred_mu none next_h
      = tmean (tsmul (1 / 2)
          (tmul (tsub pred_mu next_h) (tsub pred_mu next_h))) := by
  suffices h : tadd (tsmul (1 / 2)
        (tmul (tdiv (tsub pred_mu next_h) (onesLike pred_mu))
              (tdiv (tsub pred_mu next_h) (onesLike pred_mu))))
        (tmap tlog (onesLike pred_mu))
      = tsmul (1 / 2) (tmul (tsub pred_mu next_h) (tsub pred_mu next_h)) by
    simp only [transition_loss, Option.getD_none]
    rw [h]
  have hd : tdiv (tsub pred_mu next_h) (onesLike pred_mu)
      = tsub pred_mu next_h := by
    simp only [tdiv, tsub, onesLike]
    exact congrArg (Tensor.mk _)
      (zipWith_div_ones _ _ (by simp [List.length_zipWith]))
  rw [hd]
  have he : tmap tlog (onesLike pred_mu) = tmap (fun _ => (0 : ℚ)) pred_mu := by
    simp only [tmap, onesLike, List.map_map]
    exact congrArg (Tensor.mk pred_mu.shape)
      (congrArg (fun f => List.map f pred_mu.data) (funext fun _ => h1))
  rw [he]
  simp only [tadd, tsmul, tmul, tsub, tmap]
  exact congrArg (Tensor.mk _)
    (zipWith_add_zeros _ _ (by simp [List.length_zipWith, List.length_map]))

/-- Witness for C4 on a closed input. -/
theorem deterministic_sigma_collapses_loss_w :
    ((fun _ => (0 : ℚ)) 1 = 0) ∧
    transition_loss (fun _ => (0 : ℚ)) (⟨[2], [3, 5]⟩ : Tensor) none
        ⟨[2], [1, 1]⟩
      = tmean (tsmul (1 / 2)
          (tmul (tsub (⟨[2], [3, 5]⟩ : Tensor) ⟨[2], [1, 1]⟩)
                (tsub (⟨[2], [3, 5]⟩ : Tensor) ⟨[2], [1, 1]⟩))) :=
  ⟨rfl, deterministic_sigma_collapses_loss _ _ _ rfl⟩

/-- C7: `select_action` is deterministic and side-effect free: it leaves the
agent state unchanged, two consecutive calls with the same observation return
identical outputs, and the output is the flattened policy mean computed with
`compute_pi=False, compute_log_pi=False` (no sampling, no log-probability). -/
theorem select_action_pure_deterministic (T : Torch) (s : AgentState)
    (obs : Tensor) :
    (select_action T s obs).2 = s ∧
    (select_action T (select_action T s obs).2 obs).1
      = (select_action T s obs).1 ∧
    (select_action T (select_action T s obs).2 obs).2 = s ∧
    (select_action T s obs).1 = (T.actorMu s.actor (unsqueeze0 obs)).data ∧
    (actorForward T s.actor (unsqueeze0 obs) false false).2.1 = none ∧
    (actorForward T s.actor (unsqueeze0 obs) false false).2.2.1 = none :=
  ⟨rfl, rfl, rfl, rfl, rfl, rfl⟩

/-- C8: `update_decoder` aborts on its assertion, with the agent state
untouched, exactly when the target observation tensor does not have rank 4;
when the rank is 4 the assertion passes and the body (including both optimizer
steps) runs to completion. -/
theorem update_decoder_rank_assert (T : Torch) (s : AgentState)
    (obs action target_obs : Tensor) :
    (update_decoder T s obs action target_obs = none ↔
      target_obs.shape.length ≠ 4) ∧
    (target_obs.shape.length = 4 →
      update_decoder T s obs action target_obs
        = some (update_decoder_go T s obs action target_obs)) := by
  constructor
  · unfold update_decoder; split <;> simp_all
  · intro h; simp [update_decoder, h]

/-- Witness for C8: a rank-4 target completes, a rank-3 target aborts. -/
theorem update_decoder_rank_assert_w :
    update_decoder trivTorch st3 t4 t4 t4
      = some (update_decoder_go trivTorch st3 t4 t4 t4) ∧
    update_decoder trivTorch st3 t4 t4 t3 = none := by
  refine ⟨(update_decoder_rank_assert trivTorch st3 t4 t4 t4).2 (by decide),
    (update_decoder_rank_assert trivTorch st3 t4 t4 t3).1.mpr (by decide)⟩

/-- C9: `update_critic` mutates only the online critic's parameters and the
critic optimizer's state: the actor, the target critic, the transition model,
the reward decoder, the observation decoder and `log_alpha` are unchanged. -/
theorem update_critic_frame (T : Torch) (s : AgentState)
    (obs action reward next_obs not_done : Tensor) :
    (update_critic T s obs action reward next_obs not_done).actor = s.actor ∧
    (update_critic T s obs action reward next_obs not_done).critic_target
      = s.critic_target ∧
    (update_critic T s obs action reward next_obs not_done).transition_model
      = s.transition_model ∧
    (update_critic T s obs action reward next_obs not_done).reward_decoder
      = s.reward_decoder ∧
    (update_critic T s obs action reward next_obs not_done).decoder
      = s.decoder ∧
    (update_critic T s obs action reward next_obs not_done).log_alpha
      = s.log_alpha :=
  ⟨rfl, rfl, rfl, rfl, rfl, rfl⟩

/-- C1: the critic regression target of `update_critic`, elementwise over the
batch: for entries with `not_done = 0` it equals exactly the immediate reward
(and since this holds for every agent state, it is independent of the discount
factor and of the target critic's Q-values); for entries with `not_done = 1` it
equals `reward + discount * (min(target_Q1, target_Q2) - alpha * log_pi)`. -/
theorem critic_target_not_done_masks_bootstrap (T : Torch) (s : AgentState)
    (reward next_obs not_done : Tensor) (i : ℕ)
    (hr : i < reward.data.length) (hn : i < not_done.data.length)
    (hv : i < (critic_target_V T s next_obs).data.length) :
    (not_done.data.getD i 0 = 0 →
      (critic_target_Q T s reward next_obs not_done).data.getD i 0
        = reward.data.getD i 0) ∧
    (not_done.data.getD i 0 = 1 →
      (critic_target_Q T s reward next_obs not_done).data.getD i 0
        = reward.data.getD i 0 + s.discount *
          (min ((T.criticQ1 s.critic_target next_obs
                  (T.actorPi s.actor next_obs)).data.getD i 0)
               ((T.criticQ2 s.critic_target next_obs
                  (T.actorPi s.actor next_obs)).data.getD i 0)
            - T.texp s.log_alpha *
              (T.actorLogPi s.actor next_obs).data.getD i 0)) := by
  have hlen1 : i < (tsmul s.discount not_done).data.length := by
    simpa [tsmul] using hn
  have hlen2 : i < (tmul (tsmul s.discount not_done)
      (critic_target_V T s next_obs)).data.length := by
    simp only [tmul, List.length_zipWith, lt_min_iff]
    exact ⟨hlen1, hv⟩
  have e1 : (critic_target_Q T s reward next_obs not_done).data.getD i 0
      = reward.data.getD i 0 + (s.discount * not_done.data.getD i 0)
          * (critic_target_V T s next_obs).data.getD i 0 := by
    simp only [critic_target_Q, tadd]
    rw [zipWith_getD _ _ _ i hr hlen2]
    simp only [tmul]
    rw [zipWith_getD _ _ _ i hlen1 hv]
    simp only [tsmul]
    rw [map_getD _ _ i hn]
  constructor
  · intro h0
    rw [e1, h0]
    ring
  · intro h1
    have hv1 : i < (tmin
        (T.criticQ1 s.critic_target next_obs (T.actorPi s.actor next_obs))
        (T.criticQ2 s.critic_target next_obs
          (T.actorPi s.actor next_obs))).data.length ∧
        i < (tsmul (alpha T s)
          (T.actorLogPi s.actor next_obs)).data.length := by
      have := hv
      simp only [critic_target_V, actorForward, if_true, Option.getD_some,
        tsub, List.length_zipWith, lt_min_iff] at this
      exact this
    have hq : i < (T.criticQ1 s.critic_target next_obs
        (T.actorPi s.actor next_obs)).data.length ∧
        i < (T.criticQ2 s.critic_target next_obs
          (T.actorPi s.actor next_obs)).data.length := by
      have := hv1.1
      simp only [tmin, List.length_zipWith, lt_min_iff] at this
      exact this
    have hlp : i < (T.actorLogPi s.actor next_obs).data.length := by
      have := hv1.2
      simpa [tsmul] using this
    have e2 : (critic_target_V T s next_obs).data.getD i 0
        = min ((T.criticQ1 s.critic_target next_obs
              (T.actorPi s.actor next_obs)).data.getD i 0)
            ((T.criticQ2 s.critic_target next_obs
              (T.actorPi s.actor next_obs)).data.getD i 0)
          - T.texp s.log_alpha *
            (T.actorLogPi s.actor next_obs).data.getD i 0 := by
      simp only [critic_target_V, actorForward, if_true, Option.getD_some,
        tsub]
      rw [zipWith_getD _ _ _ i hv1.1 hv1.2]
      simp only [tmin]
      rw [zipWith_getD _ _ _ i hq.1 hq.2]
      simp only [tsmul]
      rw [map_getD _ _ i hlp]
      rfl
    rw [e1, h1, e2]
    ring

/-- Witness for C1 on closed inputs, for both mask values. -/
theorem critic_target_not_done_masks_bootstrap_w :
    (critic_target_Q trivTorch st1 rew1 t4 nd0).data.getD 0 0
      = rew1.data.getD 0 0 ∧
    (critic_target_Q trivTorch st1 rew1 t4 nd1).data.getD 0 0
      = rew1.data.getD 0 0 + st1.discount *
        (min ((trivTorch.criticQ1 st1.critic_target t4
                (trivTorch.actorPi st1.actor t4)).data.getD 0 0)
             ((trivTorch.criticQ2 st1.critic_target t4
                (trivTorch.actorPi st1.actor t4)).data.getD 0 0)
          - trivTorch.texp st1.log_alpha *
            (trivTorch.actorLogPi st1.actor t4).data.getD 0 0) := by
  constructor
  · exact (critic_target_not_done_masks_bootstrap trivTorch st1 rew1 t4 nd0 0
      (by decide) (by decide) (by decide)).1 (by decide)
  · exact (critic_target_not_done_masks_bootstrap trivTorch st1 rew1 t4 nd1 0
      (by decide) (by decide) (by decide)).2 (by decide)

@[simp]
theorem target_entropy_update_critic (T : Torch) (s : AgentState)
    (o a r no nd : Tensor) :
    (update_critic T s o a r no nd).target_entropy = s.target_entropy := rfl

@[simp]
theorem target_entropy_update_tr (T : Torch) (s : AgentState)
    (o a no r : Tensor) :
    (update_transition_reward_model T s o a no r).target_entropy
      = s.target_entropy := rfl

@[simp]
theorem target_entropy_update_aa (T : Torch) (s : AgentState) (o : Tensor) :
    (update_actor_and_alpha T s o).target_entropy = s.target_entropy := rfl

@[simp]
theorem target_entropy_target_sync (s : AgentState) :
    (target_sync s).target_entropy = s.target_entropy := rfl

@[simp]
theorem target_entropy_update_decoder_go (T : Torch) (s : AgentState)
    (o a t : Tensor) :
    (update_decoder_go T s o a t).target_entropy = s.target_entropy := rfl

@[simp]
theorem target_entropy_update_phase1 (T : Torch) (s : AgentState) (b : Batch)
    (step : ℕ) :
    (update_phase1 T s b step).target_entropy = s.target_entropy := by
  simp only [update_phase1]
  split <;> simp

/-- C2: reading the `alpha` property always returns `exp(log_alpha)`;
`target_entropy` is set at construction to the negated product of the
action-shape dimensions and is never mutated by any update procedure; the
`log_alpha`-optimizer step changes only `log_alpha` (together with the alpha
optimizer's own internal state): every network, every other optimizer state and
`target_entropy` are untouched by it. -/
theorem alpha_exp_target_entropy_const :
    (∀ (T : Torch) (s : AgentState), alpha T s = T.texp s.log_alpha) ∧
    (∀ (ash : List ℕ) (d it ct et : ℚ) (f1 f2 f3 : ℕ) (dt : String)
       (T : Torch) (a0 : ActorParams) (c0 : CriticParams) (t0 r0 d0 : Params),
       (init ash d it ct et f1 f2 f3 dt T a0 c0 t0 r0 d0).target_entropy
         = -((ash.prod : ℚ))) ∧
    (∀ (T : Torch) (s : AgentState) (o a r no nd : Tensor),
       (update_critic T s o a r no nd).target_entropy = s.target_entropy) ∧
    (∀ (T : Torch) (s : AgentState) (o : Tensor),
       (update_actor_and_alpha T s o).target_entropy = s.target_entropy) ∧
    (∀ (T : Torch) (s : AgentState) (o a no r : Tensor),
       (update_transition_reward_model T s o a no r).target_entropy
         = s.target_entropy) ∧
    (∀ (T : Torch) (s : AgentState) (o a t : Tensor),
       (update_decoder T s o a t).elim True
         (fun s1 => s1.target_entropy = s.target_entropy)) ∧
    (∀ (T : Torch) (s : AgentState) (b : Batch) (step : ℕ),
       (update T s b step).elim True
         (fun s1 => s1.target_entropy = s.target_entropy)) ∧
    (∀ (T : Torch) (s : AgentState) (lp : Tensor),
       (log_alpha_opt_step T s lp).actor = s.actor ∧
       (log_alpha_opt_step T s lp).critic = s.critic ∧
       (log_alpha_opt_step T s lp).critic_target = s.critic_target ∧
       (log_alpha_opt_step T s lp).transition_model = s.transition_model ∧
       (log_alpha_opt_step T s lp).reward_decoder = s.reward_decoder ∧
       (log_alpha_opt_step T s lp).decoder = s.decoder ∧
       (log_alpha_opt_step T s lp).target_entropy = s.target_entropy ∧
       (log_alpha_opt_step T s lp).actorOpt = s.actorOpt ∧
       (log_alpha_opt_step T s lp).criticOpt = s.criticOpt ∧
       (log_alpha_opt_step T s lp).encoderOpt = s.encoderOpt ∧
       (log_alpha_opt_step T s lp).decoderOpt = s.decoderOpt ∧
       (log_alpha_opt_step T s lp).discount = s.discount ∧
       (log_alpha_opt_step T s lp).critic_tau = s.critic_tau ∧
       (log_alpha_opt_step T s lp).encoder_tau = s.encoder_tau ∧
       (log_alpha_opt_step T s lp).actor_update_freq = s.actor_update_freq ∧
       (log_alpha_opt_step T s lp).critic_target_update_freq
         = s.critic_target_update_freq ∧
       (log_alpha_opt_step T s lp).decoder_update_freq
         = s.decoder_update_freq ∧
       (log_alpha_opt_step T s lp).reconstruction = s.reconstruction ∧
       (log_alpha_opt_step T s lp).training = s.training ∧
       (log_alpha_opt_step T s lp).events = s.events) := by
  refine ⟨fun T s => rfl,
    fun ash d it ct et f1 f2 f3 dt T a0 c0 t0 r0 d0 => rfl,
    fun T s o a r no nd => rfl, fun T s o => rfl, fun T s o a no r => rfl,
    ?_, ?_, fun T s lp =>
      ⟨rfl, rfl, rfl, rfl, rfl, rfl, rfl, rfl, rfl, rfl, rfl, rfl, rfl, rfl,
       rfl, rfl, rfl, rfl, rfl, rfl⟩⟩
  · intro T s o a t
    unfold update_decoder
    split
    · simp [Option.elim]
    · simp [Option.elim]
  · intro T s b step
    simp only [update, update_decoder]
    split <;> split <;> (try split) <;> simp [Option.elim]

theorem slice3_rank (t : Tensor) (h : t.shape.length = 4) :
    (slice3 t).shape.length = 4 := by
  rcases t with ⟨sh, d⟩
  rcases sh with _ | ⟨a, _ | ⟨b, _ | ⟨c, _ | ⟨e, _ | _⟩⟩⟩⟩ <;>
    simp_all [slice3]

/-- A second rank-4 tensor with different contents than `t4`. -/
def t4b : Tensor := ⟨[1, 2, 1, 1], [8, 9]⟩

/-- A one-element action tensor with value 9. -/
def act9 : Tensor := ⟨[1], [9]⟩

/-- C5: constructing with `decoder_type = "reconstruction"` sets the
reconstruction flag; in reconstruction mode `update_decoder` decodes the
current latent and its loss is the MSE against the current, unrescaled
observation; otherwise it samples a predicted next latent from the transition
model, and its loss is the MSE between the range-rescaled first 3 channels of
the target (next) observation and the decoding of the predicted next latent. -/
theorem decoder_branch_selection :
    (∀ (ash : List ℕ) (d it ct et : ℚ) (f1 f2 f3 : ℕ) (T : Torch)
       (a0 : ActorParams) (c0 : CriticParams) (t0 r0 d0 : Params),
       (init ash d it ct et f1 f2 f3 "reconstruction" T a0 c0 t0 r0
         d0).reconstruction = true) ∧
    (∀ (T : Torch) (s : AgentState) (obs action target_obs : Tensor),
       s.reconstruction = true →
       update_decoder_loss T s obs action target_obs
         = mse obs (T.decoderF (s.decoder.getD [])
             (T.encoderF s.critic.encoder obs))) ∧
    (∀ (T : Torch) (s : AgentState) (obs action target_obs : Tensor),
       s.reconstruction = false → target_obs.shape.length = 4 →
       update_decoder_loss T s obs action target_obs
         = mse (preprocess_obs (slice3 target_obs))
             (T.decoderF (s.decoder.getD [])
               (T.transitionSample s.transition_model
                 (tcat (T.encoderF s.critic.encoder obs) action)))) := by
  refine ⟨fun ash d it ct et f1 f2 f3 T a0 c0 t0 r0 d0 => rfl, ?_, ?_⟩
  · intro T s obs action target_obs h
    simp [update_decoder_loss, h]
  · intro T s obs action target_obs h hl
    simp [update_decoder_loss, h, slice3_rank target_obs hl]

/-- Witness for C5: both branches evaluated on closed inputs. -/
theorem decoder_branch_selection_w :
    update_decoder_loss trivTorch st2 t4 act9 t4b
      = mse t4 (trivTorch.decoderF (st2.decoder.getD [])
          (trivTorch.encoderF st2.critic.encoder t4)) ∧
    update_decoder_loss trivTorch st3 t4 act9 t4b
      = mse (preprocess_obs (slice3 t4b))
          (trivTorch.decoderF (st3.decoder.getD [])
            (trivTorch.transitionSample st3.transition_model
              (tcat (trivTorch.encoderF st3.critic.encoder t4) act9))) :=
  ⟨decoder_branch_selection.2.1 trivTorch st2 t4 act9 t4b (by decide),
   decoder_branch_selection.2.2 trivTorch st3 t4 act9 t4b (by decide)
     (by decide)⟩

/-- C10: in reconstruction mode, the decoder-update loss and the resulting
state (parameter updates included) do not depend on the action argument nor on
the contents of the (rank-4) target observation. -/
theorem update_decoder_recon_independence (T : Torch) (s : AgentState)
    (obs a a' t t' : Tensor) (hrec : s.reconstruction = true)
    (h1 : t.shape.length = 4) (h2 : t'.shape.length = 4) :
    update_decoder_loss T s obs a t = update_decoder_loss T s obs a' t' ∧
    update_decoder T s obs a t = update_decoder T s obs a' t' := by
  constructor
  · simp [update_decoder_loss, hrec]
  · simp [update_decoder, h1, h2, update_decoder_go, update_decoder_loss,
      hrec]

/-- Witness for C10: different actions and different rank-4 targets give the
same loss and the same successor state. -/
theorem update_decoder_recon_independence_w :
    update_decoder_loss trivTorch st2 t4 ⟨[1], [0]⟩ t4
      = update_decoder_loss trivTorch st2 t4 act9 t4b ∧
    update_decoder trivTorch st2 t4 ⟨[1], [0]⟩ t4
      = update_decoder trivTorch st2 t4 act9 t4b :=
  update_decoder_recon_independence trivTorch st2 t4 ⟨[1], [0]⟩ act9 t4 t4b
    (by decide) (by decide) (by decide)

@[simp]
theorem update_critic_fields (T : Torch) (s : AgentState)
    (o a r no nd : Tensor) :
    (update_critic T s o a r no nd).events = s.events ++ [Event.criticUpd]
    ∧ (update_critic T s o a r no nd).actor_update_freq
        = s.actor_update_freq
    ∧ (update_critic T s o a r no nd).critic_target_update_freq
        = s.critic_target_update_freq
    ∧ (update_critic T s o a r no nd).decoder_update_freq
        = s.decoder_update_freq
    ∧ (update_critic T s o a r no nd).decoder = s.decoder
    ∧ (update_critic T s o a r no nd).critic_tau = s.critic_tau
    ∧ (update_critic T s o a r no nd).encoder_tau = s.encoder_tau :=
  ⟨rfl, rfl, rfl, rfl, rfl, rfl, rfl⟩

@[simp]
theorem update_tr_fields (T : Torch) (s : AgentState) (o a no r : Tensor) :
    (update_transition_reward_model T s o a no r).events
        = s.events ++ [Event.trUpd]
    ∧ (update_transition_reward_model T s o a no r).actor_update_freq
        = s.actor_update_freq
    ∧ (update_transition_reward_model T s o a no r).critic_target_update_freq
        = s.critic_target_update_freq
    ∧ (update_transition_reward_model T s o a no r).decoder_update_freq
        = s.decoder_update_freq
    ∧ (update_transition_reward_model T s o a no r).decoder.isSome
        = s.decoder.isSome
    ∧ (update_transition_reward_model T s o a no r).critic_tau = s.critic_tau
    ∧ (update_transition_reward_model T s o a no r).encoder_tau
        = s.encoder_tau
    ∧ (update_transition_reward_model T s o a no r).critic_target
        = s.critic_target :=
  ⟨rfl, rfl, rfl, rfl,
   by cases hd : s.decoder <;> simp [update_transition_reward_model, hd],
   rfl, rfl, rfl⟩

@[simp]
theorem update_aa_fields (T : Torch) (s : AgentState) (o : Tensor) :
    (update_actor_and_alpha T s o).events
        = s.events ++ [Event.actorAlphaUpd]
    ∧ (update_actor_and_alpha T s o).actor_update_freq = s.actor_update_freq
    ∧ (update_actor_and_alpha T s o).critic_target_update_freq
        = s.critic_target_update_freq
    ∧ (update_actor_and_alpha T s o).decoder_update_freq
        = s.decoder_update_freq
    ∧ (update_actor_and_alpha T s o).decoder = s.decoder
    ∧ (update_actor_and_alpha T s o).critic_tau = s.critic_tau
    ∧ (update_actor_and_alpha T s o).encoder_tau = s.encoder_tau
    ∧ (update_actor_and_alpha T s o).critic = s.critic
    ∧ (update_actor_and_alpha T s o).critic_target = s.critic_target :=
  ⟨rfl, rfl, rfl, rfl, rfl, rfl, rfl, rfl, rfl⟩

@[simp]
theorem target_sync_fields (s : AgentState) :
    (target_sync s).events
        = s.events ++ [Event.syncQ1, Event.syncQ2, Event.syncEncoder]
    ∧ (target_sync s).decoder = s.decoder
    ∧ (target_sync s).decoder_update_freq = s.decoder_update_freq
    ∧ (target_sync s).critic = s.critic :=
  ⟨rfl, rfl, rfl, rfl⟩

@[simp]
theorem update_decoder_go_events (T : Torch) (s : AgentState)
    (o a t : Tensor) :
    (update_decoder_go T s o a t).events = s.events ++ [Event.decoderUpd]
    ∧ (update_decoder_go T s o a t).critic_target = s.critic_target :=
  ⟨rfl, rfl⟩

@[simp]
theorem update_phase1_fields (T : Torch) (s : AgentState) (b : Batch)
    (step : ℕ) :
    (update_phase1 T s b step).events
        = s.events ++ [Event.criticUpd, Event.trUpd]
          ++ (if step % s.actor_update_freq = 0 then [Event.actorAlphaUpd]
              else [])
    ∧ (update_phase1 T s b step).critic_target_update_freq
        = s.critic_target_update_freq
    ∧ (update_phase1 T s b step).decoder_update_freq = s.decoder_update_freq
    ∧ (update_phase1 T s b step).decoder.isSome = s.decoder.isSome := by
  unfold update_phase1
  split <;> simp_all

/-- C6: for every step counter, `update` runs the critic update and the
transition/reward update unconditionally and in that order, the actor/alpha
update exactly when `step % actor_update_freq = 0`, the target-critic soft
update (Q1, Q2, encoder, after the critic update of the same call) exactly
when `step % critic_target_update_freq = 0`, and the decoder update exactly
when a decoder exists and `step % decoder_update_freq = 0` — so the
transition/reward update always precedes any encoder EMA within a call. -/
theorem update_schedule_trace (T : Torch) (s : AgentState) (b : Batch)
    (step : ℕ) :
    (update T s b step).elim True (fun s1 =>
      s1.events = s.events ++ [Event.criticUpd, Event.trUpd]
        ++ (if step % s.actor_update_freq = 0 then [Event.actorAlphaUpd]
            else [])
        ++ (if step % s.critic_target_update_freq = 0 then
              [Event.syncQ1, Event.syncQ2, Event.syncEncoder] else [])
        ++ (if s.decoder.isSome = true ∧ step % s.decoder_update_freq = 0
            then [Event.decoderUpd] else [])) := by
  simp only [update, update_decoder]
  split <;> split <;> (try split) <;> simp_all [Option.elim]

/-- C3: when `step % critic_target_update_freq = 0`, `update` soft-updates
target Q1 and Q2 with rate `critic_tau` and the target encoder with rate
`encoder_tau` from the online critic (in its state after the preceding phase
of the same call), and each updated target parameter elementwise equals
`(1 - tau) * old_target + tau * online`. -/
theorem target_soft_update_formula (T : Torch) (s : AgentState) (b : Batch)
    (step : ℕ) (s1 : AgentState)
    (hl1 : (update_phase1 T s b step).critic.Q1.length
      = (update_phase1 T s b step).critic_target.Q1.length)
    (hl2 : (update_phase1 T s b step).critic.Q2.length
      = (update_phase1 T s b step).critic_target.Q2.length)
    (hl3 : (update_phase1 T s b step).critic.encoder.length
      = (update_phase1 T s b step).critic_target.encoder.length)
    (hg : step % (update_phase1 T s b step).critic_target_update_freq = 0)
    (hu : update T s b step = some s1) :
    (s1.critic_target.Q1 = soft_update_params
        (update_phase1 T s b step).critic_tau
        (update_phase1 T s b step).critic.Q1
        (update_phase1 T s b step).critic_target.Q1 ∧
      ∀ i : ℕ, s1.critic_target.Q1.getD i 0
        = (1 - (update_phase1 T s b step).critic_tau)
            * (update_phase1 T s b step).critic_target.Q1.getD i 0
          + (update_phase1 T s b step).critic_tau
            * (update_phase1 T s b step).critic.Q1.getD i 0) ∧
    (s1.critic_target.Q2 = soft_update_params
        (update_phase1 T s b step).critic_tau
        (update_phase1 T s b step).critic.Q2
        (update_phase1 T s b step).critic_target.Q2 ∧
      ∀ i : ℕ, s1.critic_target.Q2.getD i 0
        = (1 - (update_phase1 T s b step).critic_tau)
            * (update_phase1 T s b step).critic_target.Q2.getD i 0
          + (update_phase1 T s b step).critic_tau
            * (update_phase1 T s b step).critic.Q2.getD i 0) ∧
    (s1.critic_target.encoder = soft_update_params
        (update_phase1 T s b step).encoder_tau
        (update_phase1 T s b step).critic.encoder
        (update_phase1 T s b step).critic_target.encoder ∧
      ∀ i : ℕ, s1.critic_target.encoder.getD i 0
        = (1 - (update_phase1 T s b step).encoder_tau)
            * (update_phase1 T s b step).critic_target.encoder.getD i 0
          + (update_phase1 T s b step).encoder_tau
            * (update_phase1 T s b step).critic.encoder.getD i 0) := by
  have hct : s1.critic_target
      = (target_sync (update_phase1 T s b step)).critic_target := by
    simp only [update, update_decoder] at hu
    rw [if_pos hg] at hu
    split at hu
    · split at hu
      · injection hu with h
        rw [← h]
        rfl
      · exact absurd hu (by simp)
    · injection hu with h
      rw [← h]
  refine ⟨⟨by rw [hct]; rfl, fun i => ?_⟩, ⟨by rw [hct]; rfl, fun i => ?_⟩,
    ⟨by rw [hct]; rfl, fun i => ?_⟩⟩
  · rw [hct]
    exact soft_update_params_getD _ _ _ hl1 i
  · rw [hct]
    exact soft_update_params_getD _ _ _ hl2 i
  · rw [hct]
    exact soft_update_params_getD _ _ _ hl3 i

/-- Witness for C3 on a closed run (`step = 0`, gate satisfied): matches the
spec's toy example, `old = 0`, `online = 1`, `tau = 1/10`. -/
theorem target_soft_update_formula_w :
    (target_sync (update_phase1 trivTorch st1 b1 0)).critic_target.Q1
      = soft_update_params (update_phase1 trivTorch st1 b1 0).critic_tau
          (update_phase1 trivTorch st1 b1 0).critic.Q1
          (update_phase1 trivTorch st1 b1 0).critic_target.Q1 ∧
    (target_sync (update_phase1 trivTorch st1 b1 0)).critic_target.Q1.getD 0 0
      = (1 - (update_phase1 trivTorch st1 b1 0).critic_tau)
          * (update_phase1 trivTorch st1 b1 0).critic_target.Q1.getD 0 0
        + (update_phase1 trivTorch st1 b1 0).critic_tau
          * (update_phase1 trivTorch st1 b1 0).critic.Q1.getD 0 0 := by
  have h := target_soft_update_formula trivTorch st1 b1 0
    (target_sync (update_phase1 trivTorch st1 b1 0))
    (by decide) (by decide) (by decide) (by decide) rfl
  exact ⟨h.1.1, h.1.2 0⟩

end DeepMDP
